import Mathlib

/-!
Shallow embedding of the `http-types` status-code crate: the `StatusCode`
newtype over a 16-bit number (`src/status_code.rs`) and the `Status`
adapter for fallible and optional values (`src/status.rs`).  Machine
integers (`u16`) are embedded as `Nat`; no arithmetic in the source can
overflow, so bounds appear only as explicit hypotheses `n < 65536`.
-/

namespace HttpTypes

/-- The `StatusCode` newtype: `pub struct StatusCode(pub u16)`. -/
structure StatusCode where
  val : Nat
deriving DecidableEq, Repr

namespace StatusCode

/-- 100 Continue -/
def Continue : StatusCode := ⟨100⟩

/-- 101 Switching Protocols -/
def SwitchingProtocols : StatusCode := ⟨101⟩

/-- 103 Early Hints -/
def EarlyHints : StatusCode := ⟨103⟩

/-- 200 Ok -/
def Ok : StatusCode := ⟨200⟩

/-- 201 Created -/
def Created : StatusCode := ⟨201⟩

/-- 202 Accepted -/
def Accepted : StatusCode := ⟨202⟩

/-- 203 Non Authoritative Information -/
def NonAuthoritativeInformation : StatusCode := ⟨203⟩

/-- 204 No Content -/
def NoContent : StatusCode := ⟨204⟩

/-- 205 Reset Content -/
def ResetContent : StatusCode := ⟨205⟩

/-- 206 Partial Content -/
def PartialContent : StatusCode := ⟨206⟩

/-- 207 Multi-Status -/
def MultiStatus : StatusCode := ⟨207⟩

/-- 226 Im Used -/
def ImUsed : StatusCode := ⟨226⟩

/-- 300 Multiple Choice -/
def MultipleChoice : StatusCode := ⟨300⟩

/-- 301 Moved Permanently -/
def MovedPermanently : StatusCode := ⟨301⟩

/-- 302 Found -/
def Found : StatusCode := ⟨302⟩

/-- 303 See Other -/
def SeeOther : StatusCode := ⟨303⟩

/-- 304 Not Modified -/
def NotModified : StatusCode := ⟨304⟩

/-- 307 Temporary Redirect -/
def TemporaryRedirect : StatusCode := ⟨307⟩

/-- 308 Permanent Redirect -/
def PermanentRedirect : StatusCode := ⟨308⟩

/-- 400 Bad Request -/
def BadRequest : StatusCode := ⟨400⟩

/-- 401 Unauthorized -/
def Unauthorized : StatusCode := ⟨401⟩

/-- 402 Payment Required -/
def PaymentRequired : StatusCode := ⟨402⟩

/-- 403 Forbidden -/
def Forbidden : StatusCode := ⟨403⟩

/-- 404 Not Found -/
def NotFound : StatusCode := ⟨404⟩

/-- 405 Method Not Allowed -/
def MethodNotAllowed : StatusCode := ⟨405⟩

/-- 406 Not Acceptable -/
def NotAcceptable : StatusCode := ⟨406⟩

/-- 407 Proxy Authentication Required -/
def ProxyAuthenticationRequired : StatusCode := ⟨407⟩

/-- 408 Request Timeout -/
def RequestTimeout : StatusCode := ⟨408⟩

/-- 409 Conflict -/
def Conflict : StatusCode := ⟨409⟩

/-- 410 Gone -/
def Gone : StatusCode := ⟨410⟩

/-- 411 Length Required -/
def LengthRequired : StatusCode := ⟨411⟩

/-- 412 Precondition Failed -/
def PreconditionFailed : StatusCode := ⟨412⟩

/-- 413 Payload Too Large -/
def PayloadTooLarge : StatusCode := ⟨413⟩

/-- 414 URI Too Long -/
def UriTooLong : StatusCode := ⟨414⟩

/-- 415 Unsupported Media Type -/
def UnsupportedMediaType : StatusCode := ⟨415⟩

/-- 416 Requested Range Not Satisfiable -/
def RequestedRangeNotSatisfiable : StatusCode := ⟨416⟩

/-- 417 Expectation Failed -/
def ExpectationFailed : StatusCode := ⟨417⟩

/-- 418 I'm a teapot -/
def ImATeapot : StatusCode := ⟨418⟩

/-- 421 Misdirected Request -/
def MisdirectedRequest : StatusCode := ⟨421⟩

/-- 422 Unprocessable Entity -/
def UnprocessableEntity : StatusCode := ⟨422⟩

/-- 423 Locked -/
def Locked : StatusCode := ⟨423⟩

/-- 424 Failed Dependency -/
def FailedDependency : StatusCode := ⟨424⟩

/-- 425 Too Early -/
def TooEarly : StatusCode := ⟨425⟩

/-- 426 Upgrade Required -/
def UpgradeRequired : StatusCode := ⟨426⟩

/-- 428 Precondition Required -/
def PreconditionRequired : StatusCode := ⟨428⟩

/-- 429 Too Many Requests -/
def TooManyRequests : StatusCode := ⟨429⟩

/-- 431 Request Header Fields Too Large -/
def RequestHeaderFieldsTooLarge : StatusCode := ⟨431⟩

/-- 451 Unavailable For Legal Reasons -/
def UnavailableForLegalReasons : StatusCode := ⟨451⟩

/-- 500 Internal Server Error -/
def InternalServerError : StatusCode := ⟨500⟩

/-- 501 Not Implemented -/
def NotImplemented : StatusCode := ⟨501⟩

/-- 502 Bad Gateway -/
def BadGateway : StatusCode := ⟨502⟩

/-- 503 Service Unavailable -/
def ServiceUnavailable : StatusCode := ⟨503⟩

/-- 504 Gateway Timeout -/
def GatewayTimeout : StatusCode := ⟨504⟩

/-- 505 HTTP Version Not Supported -/
def HttpVersionNotSupported : StatusCode := ⟨505⟩

/-- 506 Variant Also Negotiates -/
def VariantAlsoNegotiates : StatusCode := ⟨506⟩

/-- 507 Insufficient Storage -/
def InsufficientStorage : StatusCode := ⟨507⟩

/-- 508 Loop Detected -/
def LoopDetected : StatusCode := ⟨508⟩

/-- 510 Not Extended -/
def NotExtended : StatusCode := ⟨510⟩

/-- 511 Network Authentication Required -/
def NetworkAuthenticationRequired : StatusCode := ⟨511⟩

/-- All named constants declared on `StatusCode`, in source order. -/
def namedConstants : List StatusCode :=
  [Continue, SwitchingProtocols, EarlyHints, Ok, Created, Accepted,
   NonAuthoritativeInformation, NoContent, ResetContent, PartialContent,
   MultiStatus, ImUsed, MultipleChoice, MovedPermanently, Found, SeeOther,
   NotModified, TemporaryRedirect, PermanentRedirect, BadRequest,
   Unauthorized, PaymentRequired, Forbidden, NotFound, MethodNotAllowed,
   NotAcceptable, ProxyAuthenticationRequired, RequestTimeout, Conflict,
   Gone, LengthRequired, PreconditionFailed, PayloadTooLarge, UriTooLong,
   UnsupportedMediaType, RequestedRangeNotSatisfiable, ExpectationFailed,
   ImATeapot, MisdirectedRequest, UnprocessableEntity, Locked,
   FailedDependency, TooEarly, UpgradeRequired, PreconditionRequired,
   TooManyRequests, RequestHeaderFieldsTooLarge, UnavailableForLegalReasons,
   InternalServerError, NotImplemented, BadGateway, ServiceUnavailable,
   GatewayTimeout, HttpVersionNotSupported, VariantAlsoNegotiates,
   InsufficientStorage, LoopDetected, NotExtended,
   NetworkAuthenticationRequired]

/-- `is_informational`: `self.0 >= 100 && self.0 < 200`. -/
def is_informational (c : StatusCode) : Bool :=
  decide (100 ≤ c.val) && decide (c.val < 200)

/-- `is_success`: `self.0 >= 200 && self.0 < 300`. -/
def is_success (c : StatusCode) : Bool :=
  decide (200 ≤ c.val) && decide (c.val < 300)

/-- `is_redirection`: `self.0 >= 300 && self.0 < 400`. -/
def is_redirection (c : StatusCode) : Bool :=
  decide (300 ≤ c.val) && decide (c.val < 400)

/-- `is_client_error`: `self.0 >= 400 && self.0 < 500`. -/
def is_client_error (c : StatusCode) : Bool :=
  decide (400 ≤ c.val) && decide (c.val < 500)

/-- `is_server_error`: `self.0 >= 500 && self.0 < 600`. -/
def is_server_error (c : StatusCode) : Bool :=
  decide (500 ≤ c.val) && decide (c.val < 600)

/-- `is_unknown`: the source matches `*self` against every named constant
(each a `StatusCode` wrapping the literal shown) and yields `false` on a
hit, `true` on the wildcard arm. -/
def is_unknown (c : StatusCode) : Bool :=
  match c.val with
  | 100 | 101 | 103 | 200 | 201 | 202 | 203 | 204 | 205 | 206 | 207 | 226
  | 300 | 301 | 302 | 303 | 304 | 307 | 308
  | 400 | 401 | 402 | 403 | 404 | 405 | 406 | 407 | 408 | 409 | 410 | 411
  | 412 | 413 | 414 | 415 | 416 | 417 | 418 | 421 | 422 | 423 | 424 | 425
  | 426 | 428 | 429 | 431 | 451
  | 500 | 501 | 502 | 503 | 504 | 505 | 506 | 507 | 508 | 510 | 511 => false
  | _ => true

/-- `canonical_reason`: the source matches `*self` against every named
constant and returns the reason phrase literal, with the wildcard arm
returning `"Unknown Status Code"`. -/
def canonical_reason (c : StatusCode) : String :=
  match c.val with
  | 100 => "Continue"
  | 101 => "Switching Protocols"
  | 103 => "Early Hints"
  | 200 => "OK"
  | 201 => "Created"
  | 202 => "Accepted"
  | 203 => "Non Authoritative Information"
  | 204 => "No Content"
  | 205 => "Reset Content"
  | 206 => "Partial Content"
  | 207 => "Multi-Status"
  | 226 => "Im Used"
  | 300 => "Multiple Choice"
  | 301 => "Moved Permanently"
  | 302 => "Found"
  | 303 => "See Other"
  | 304 => "Modified"
  | 307 => "Temporary Redirect"
  | 308 => "Permanent Redirect"
  | 400 => "Bad Request"
  | 401 => "Unauthorized"
  | 402 => "Payment Required"
  | 403 => "Forbidden"
  | 404 => "Not Found"
  | 405 => "Method Not Allowed"
  | 406 => "Not Acceptable"
  | 407 => "Proxy Authentication Required"
  | 408 => "Request Timeout"
  | 409 => "Conflict"
  | 410 => "Gone"
  | 411 => "Length Required"
  | 412 => "Precondition Failed"
  | 413 => "Payload Too Large"
  | 414 => "URI Too Long"
  | 415 => "Unsupported Media Type"
  | 416 => "Requested Range Not Satisfiable"
  | 417 => "Expectation Failed"
  | 418 => "I\x27m a teapot"
  | 421 => "Misdirected Request"
  | 422 => "Unprocessable Entity"
  | 423 => "Locked"
  | 424 => "Failed Dependency"
  | 425 => "Too Early"
  | 426 => "Upgrade Required"
  | 428 => "Precondition Required"
  | 429 => "Too Many Requests"
  | 431 => "Request Header Fields Too Large"
  | 451 => "Unavailable For Legal Reasons"
  | 500 => "Internal Server Error"
  | 501 => "Not Implemented"
  | 502 => "Bad Gateway"
  | 503 => "Service Unavailable"
  | 504 => "Gateway Timeout"
  | 505 => "HTTP Version Not Supported"
  | 506 => "Variant Also Negotiates"
  | 507 => "Insufficient Storage"
  | 508 => "Loop Detected"
  | 510 => "Not Extended"
  | 511 => "Network Authentication Required"
  | _ => "Unknown Status Code"

/-- `impl From<StatusCode> for u16`: `code.0`. -/
def to_u16 (code : StatusCode) : Nat :=
  code.val

/-- `impl From<u16> for StatusCode`: each registered number maps to its
named constant, the wildcard arm `n => StatusCode(n)` wraps the number
unchanged. -/
def from_u16 (num : Nat) : StatusCode :=
  match num with
  | 100 => Continue
  | 101 => SwitchingProtocols
  | 103 => EarlyHints
  | 200 => Ok
  | 201 => Created
  | 202 => Accepted
  | 203 => NonAuthoritativeInformation
  | 204 => NoContent
  | 205 => ResetContent
  | 206 => PartialContent
  | 207 => MultiStatus
  | 226 => ImUsed
  | 300 => MultipleChoice
  | 301 => MovedPermanently
  | 302 => Found
  | 303 => SeeOther
  | 304 => NotModified
  | 307 => TemporaryRedirect
  | 308 => PermanentRedirect
  | 400 => BadRequest
  | 401 => Unauthorized
  | 402 => PaymentRequired
  | 403 => Forbidden
  | 404 => NotFound
  | 405 => MethodNotAllowed
  | 406 => NotAcceptable
  | 407 => ProxyAuthenticationRequired
  | 408 => RequestTimeout
  | 409 => Conflict
  | 410 => Gone
  | 411 => LengthRequired
  | 412 => PreconditionFailed
  | 413 => PayloadTooLarge
  | 414 => UriTooLong
  | 415 => UnsupportedMediaType
  | 416 => RequestedRangeNotSatisfiable
  | 417 => ExpectationFailed
  | 418 => ImATeapot
  | 421 => MisdirectedRequest
  | 422 => UnprocessableEntity
  | 423 => Locked
  | 424 => FailedDependency
  | 425 => TooEarly
  | 426 => UpgradeRequired
  | 428 => PreconditionRequired
  | 429 => TooManyRequests
  | 431 => RequestHeaderFieldsTooLarge
  | 451 => UnavailableForLegalReasons
  | 500 => InternalServerError
  | 501 => NotImplemented
  | 502 => BadGateway
  | 503 => ServiceUnavailable
  | 504 => GatewayTimeout
  | 505 => HttpVersionNotSupported
  | 506 => VariantAlsoNegotiates
  | 507 => InsufficientStorage
  | 508 => LoopDetected
  | 510 => NotExtended
  | 511 => NetworkAuthenticationRequired
  | n => StatusCode.mk n

/-- `impl PartialEq<u16> for StatusCode`: `u16::from(*self) == *other`. -/
def eq_u16 (c : StatusCode) (other : Nat) : Bool :=
  to_u16 c == other

/-- `impl Display for StatusCode`: writes `u16::from(*self)` in decimal. -/
def display (c : StatusCode) : String :=
  toString (to_u16 c)

end StatusCode

/-- `impl PartialEq<StatusCode> for u16`: `*self == u16::from(*other)`. -/
def u16_eq_statusCode (n : Nat) (other : StatusCode) : Bool :=
  n == StatusCode.to_u16 other

/-- The registered status-code numbers, exactly the set enumerated in the
glossary table of the specification (100, 101, 103, 200-207, 226, 300-304,
307, 308, 400-418, 421-426, 428, 429, 431, 451, 500-508, 510, 511). -/
def registeredNumbers : List Nat :=
  [100, 101, 103, 200, 201, 202, 203, 204, 205, 206, 207, 226,
   300, 301, 302, 303, 304, 307, 308,
   400, 401, 402, 403, 404, 405, 406, 407, 408, 409, 410, 411,
   412, 413, 414, 415, 416, 417, 418, 421, 422, 423, 424, 425,
   426, 428, 429, 431, 451,
   500, 501, 502, 503, 504, 505, 506, 507, 508, 510, 511]

/-- Modelled from the spec: the cause stored inside the external `Error`
collaborator, which is not under src/ — either a structured underlying
error (`Error::new`) or a descriptive string (`Error::from_str`). -/
inductive Cause (E : Type) where
  | error : E → Cause E
  | message : String → Cause E
deriving DecidableEq

/-- Modelled from the spec: the external `Error` collaborator, which is not
under src/.  The spec specifies only its construction contract: it is built
from a `StatusCode` plus a cause, and exposes a `status()` accessor
returning the `StatusCode` it was built with. -/
structure Error (E : Type) where
  status : StatusCode
  cause : Cause E
deriving DecidableEq

/-- Modelled from the spec: `Error::new(status, error)` pairs the status
with a structured underlying cause. -/
def Error.new {E : Type} (status : StatusCode) (error : E) : Error E :=
  ⟨status, Cause.error error⟩

/-- Modelled from the spec: `Error::from_str(status, msg)` pairs the status
with a descriptive string cause. -/
def Error.from_str {E : Type} (status : StatusCode) (msg : String) : Error E :=
  ⟨status, Cause.message msg⟩

/-- `core::convert::Infallible`: an uninhabited error type. -/
def Infallible : Type := Empty

/-- `Result::map_err`: applies `op` to a contained `Err` value, leaving an
`Ok` value untouched. -/
def Result.map_err {T E F : Type} (self : Except E T) (op : E → F) : Except F T :=
  match self with
  | Except.ok t => Except.ok t
  | Except.error e => Except.error (op e)

/-- `Option::ok_or_else`: transforms `Some(v)` into `Ok(v)` and `None` into
`Err(err())`, where `err` is evaluated lazily. -/
def Option.ok_or_else {T E : Type} (self : Option T) (err : Unit → E) : Except E T :=
  match self with
  | some v => Except.ok v
  | none => Except.error (err ())

/-- `<Result<T, E> as Status<T, E>>::status`: the source is generic over a
status-like `S: Into<StatusCode>`; the conversion is passed explicitly as
`into`.  `self.map_err(|error| Error::new(status.into(), error))`. -/
def Result.status {T E S : Type} (self : Except E T) (into : S → StatusCode)
    (status : S) : Except (Error E) T :=
  Result.map_err self (fun error => Error.new (into status) error)

/-- `<Result<T, E> as Status<T, E>>::with_status`:
`self.map_err(|error| Error::new(f().into(), error))`. -/
def Result.with_status {T E S : Type} (self : Except E T) (into : S → StatusCode)
    (f : Unit → S) : Except (Error E) T :=
  Result.map_err self (fun error => Error.new (into (f ())) error)

/-- `<Option<T> as Status<T, Infallible>>::status`:
`self.ok_or_else(|| Error::from_str(status.into(), "NoneError"))`. -/
def Option.status {T S : Type} (self : Option T) (into : S → StatusCode)
    (status : S) : Except (Error Infallible) T :=
  Option.ok_or_else self (fun _ => Error.from_str (into status) "NoneError")

/-- `<Option<T> as Status<T, Infallible>>::with_status`:
`self.ok_or_else(|| Error::from_str(f().into(), "NoneError"))`. -/
def Option.with_status {T S : Type} (self : Option T) (into : S → StatusCode)
    (f : Unit → S) : Except (Error Infallible) T :=
  Option.ok_or_else self (fun _ => Error.from_str (into (f ())) "NoneError")

/-- Every arm of the `u16 → StatusCode` conversion, the registered ones
included, returns the `StatusCode` wrapping its scrutinee. -/
theorem from_u16_mk (n : Nat) : StatusCode.from_u16 n = StatusCode.mk n := by
  unfold StatusCode.from_u16
  split <;> rfl

/-- `is_unknown` computes non-membership in the registered set. -/
theorem is_unknown_eq_not_contains (n : Nat) :
    StatusCode.is_unknown ⟨n⟩ = !(registeredNumbers.contains n) := by
  unfold StatusCode.is_unknown
  split
  case h_60 => simp_all [registeredNumbers]
  all_goals (rename_i heq; have h : n = _ := heq; subst h; rfl)

/-- `canonical_reason` yields the fallback string exactly off the
registered set. -/
theorem canonical_reason_eq_unknown_iff (n : Nat) :
    (StatusCode.canonical_reason ⟨n⟩ = "Unknown Status Code" ↔
      n ∉ registeredNumbers) := by
  unfold StatusCode.canonical_reason
  split
  case h_60 => simp_all [registeredNumbers]
  all_goals (rename_i heq; have h : n = _ := heq; subst h; simp [registeredNumbers])

/-- `canonical_reason` never yields the empty string. -/
theorem canonical_reason_ne_empty (n : Nat) :
    StatusCode.canonical_reason ⟨n⟩ ≠ "" := by
  unfold StatusCode.canonical_reason
  split <;> simp

/-- Claim C1: converting any number `n` to a `StatusCode` and back returns
exactly `n` (stated for all `Nat`, so for all of [0,65535] in particular),
and converting any named constant to its number and back returns the same
constant. -/
theorem roundtrip_u16_statusCode (n : Nat) :
    StatusCode.to_u16 (StatusCode.from_u16 n) = n ∧
    ∀ C ∈ StatusCode.namedConstants,
      StatusCode.from_u16 (StatusCode.to_u16 C) = C := by
  refine ⟨?_, by decide⟩
  rw [from_u16_mk]
  rfl

/-- Claim C1 witness: the round trip evaluated at 42 and at the named
constant `NotFound`. -/
theorem roundtrip_u16_statusCode_witness :
    StatusCode.to_u16 (StatusCode.from_u16 42) = 42 ∧
    StatusCode.from_u16 (StatusCode.to_u16 StatusCode.NotFound) =
      StatusCode.NotFound :=
  ⟨(roundtrip_u16_statusCode 42).1,
   (roundtrip_u16_statusCode 42).2 StatusCode.NotFound (by decide)⟩

/-- Claim C2: for every `u16` value `n`, `is_unknown` on the `StatusCode`
for `n` is true iff `n` is not one of the registered numbers enumerated in
the glossary table, and is false for every registered number. -/
theorem is_unknown_iff_not_registered (n : Nat) (h : n < 65536) :
    ((StatusCode.from_u16 n).is_unknown = true ↔ n ∉ registeredNumbers) ∧
    (n ∈ registeredNumbers → (StatusCode.from_u16 n).is_unknown = false) := by
  rw [from_u16_mk, is_unknown_eq_not_contains]
  simp [List.contains]

/-- Claim C2 witness: evaluated at the unregistered number 604. -/
theorem is_unknown_iff_not_registered_witness :
    (604 : Nat) < 65536 ∧
    (((StatusCode.from_u16 604).is_unknown = true ↔
        (604 : Nat) ∉ registeredNumbers) ∧
     ((604 : Nat) ∈ registeredNumbers →
        (StatusCode.from_u16 604).is_unknown = false)) :=
  ⟨by decide, is_unknown_iff_not_registered 604 (by decide)⟩

/-- Claim C3: `canonical_reason` is non-empty for every `u16` input, equals
the literal `"Unknown Status Code"` exactly for unregistered numbers, maps
404 to `"Not Found"`, and maps 304 (`NotModified`) to the literal
`"Modified"`, not `"Not Modified"`. -/
theorem canonical_reason_spec (n : Nat) (h : n < 65536) :
    (StatusCode.from_u16 n).canonical_reason ≠ "" ∧
    ((StatusCode.from_u16 n).canonical_reason = "Unknown Status Code" ↔
      n ∉ registeredNumbers) ∧
    (StatusCode.from_u16 404).canonical_reason = "Not Found" ∧
    (StatusCode.from_u16 304).canonical_reason = "Modified" ∧
    StatusCode.NotModified.canonical_reason = "Modified" ∧
    StatusCode.NotModified.canonical_reason ≠ "Not Modified" := by
  rw [from_u16_mk]
  exact ⟨canonical_reason_ne_empty n, canonical_reason_eq_unknown_iff n,
    by decide, by decide, by decide, by decide⟩

/-- Claim C3 witness: evaluated at the unregistered number 604. -/
theorem canonical_reason_spec_witness :
    (604 : Nat) < 65536 ∧
    ((StatusCode.from_u16 604).canonical_reason ≠ "" ∧
     ((StatusCode.from_u16 604).canonical_reason = "Unknown Status Code" ↔
        (604 : Nat) ∉ registeredNumbers) ∧
     (StatusCode.from_u16 404).canonical_reason = "Not Found" ∧
     (StatusCode.from_u16 304).canonical_reason = "Modified" ∧
     StatusCode.NotModified.canonical_reason = "Modified" ∧
     StatusCode.NotModified.canonical_reason ≠ "Not Modified") :=
  ⟨by decide, canonical_reason_spec 604 (by decide)⟩

/-- Claim C4: the five range predicates hold exactly on [100,200), [200,300),
[300,400), [400,500) and [500,600) respectively, are pairwise mutually
exclusive, exactly one holds on [100,600), and all five are false outside
[100,600). -/
theorem range_predicates_partition (c : StatusCode) :
    (c.is_informational = true ↔ 100 ≤ c.val ∧ c.val < 200) ∧
    (c.is_success = true ↔ 200 ≤ c.val ∧ c.val < 300) ∧
    (c.is_redirection = true ↔ 300 ≤ c.val ∧ c.val < 400) ∧
    (c.is_client_error = true ↔ 400 ≤ c.val ∧ c.val < 500) ∧
    (c.is_server_error = true ↔ 500 ≤ c.val ∧ c.val < 600) ∧
    ¬(c.is_informational = true ∧ c.is_success = true) ∧
    ¬(c.is_informational = true ∧ c.is_redirection = true) ∧
    ¬(c.is_informational = true ∧ c.is_client_error = true) ∧
    ¬(c.is_informational = true ∧ c.is_server_error = true) ∧
    ¬(c.is_success = true ∧ c.is_redirection = true) ∧
    ¬(c.is_success = true ∧ c.is_client_error = true) ∧
    ¬(c.is_success = true ∧ c.is_server_error = true) ∧
    ¬(c.is_redirection = true ∧ c.is_client_error = true) ∧
    ¬(c.is_redirection = true ∧ c.is_server_error = true) ∧
    ¬(c.is_client_error = true ∧ c.is_server_error = true) ∧
    (100 ≤ c.val ∧ c.val < 600 →
      c.is_informational = true ∨ c.is_success = true ∨
      c.is_redirection = true ∨ c.is_client_error = true ∨
      c.is_server_error = true) ∧
    (¬(100 ≤ c.val ∧ c.val < 600) →
      c.is_informational = false ∧ c.is_success = false ∧
      c.is_redirection = false ∧ c.is_client_error = false ∧
      c.is_server_error = false) := by
  unfold StatusCode.is_informational StatusCode.is_success
    StatusCode.is_redirection StatusCode.is_client_error
    StatusCode.is_server_error
  simp only [Bool.and_eq_true, decide_eq_true_eq, Bool.and_eq_false_iff,
    decide_eq_false_iff_not, not_le, not_lt]
  and_intros <;> first | trivial | omega

/-- Claim C4 witness: 42 lies outside [100,600), so all five predicates are
false on `StatusCode(42)`. -/
theorem range_predicates_partition_witness :
    (StatusCode.mk 42).is_informational = false ∧
    (StatusCode.mk 42).is_success = false ∧
    (StatusCode.mk 42).is_redirection = false ∧
    (StatusCode.mk 42).is_client_error = false ∧
    (StatusCode.mk 42).is_server_error = false :=
  (range_predicates_partition
    ⟨42⟩).2.2.2.2.2.2.2.2.2.2.2.2.2.2.2.2 (by decide)

/-- Claim C5: on the failure path, `status` and `with_status` on a `Result`
wrap the original error `e` in an `Error` built from the converted status,
whose `status` accessor returns that converted status; `status` on `None`
yields an `Error` built via `Error::from_str` from the converted status and
the sentinel string `"NoneError"`; an unregistered code such as 600 is
carried through unchanged into the unknown representation, with no
substitution (and no panic: every function here is total). -/
theorem adapter_failure_path {T E S : Type} (e : E) (into : S → StatusCode)
    (s : S) (f : Unit → S) :
    Result.status (T := T) (Except.error e) into s =
      Except.error (Error.new (into s) e) ∧
    (Error.new (into s) e).status = into s ∧
    Result.with_status (T := T) (Except.error e) into f =
      Except.error (Error.new (into (f ())) e) ∧
    Option.status (none : Option T) into s =
      Except.error (Error.from_str (into s) "NoneError") ∧
    Option.with_status (none : Option T) into f =
      Except.error (Error.from_str (into (f ())) "NoneError") ∧
    (Error.from_str (E := Infallible) (into s) "NoneError").status = into s ∧
    Result.status (T := T) (Except.error e) StatusCode.from_u16 600 =
      Except.error (Error.new (StatusCode.mk 600) e) ∧
    (Error.new (StatusCode.mk 600) e).status = StatusCode.mk 600 ∧
    (StatusCode.mk 600).is_unknown = true :=
  ⟨rfl, rfl, rfl, rfl, rfl, rfl, rfl, rfl, rfl⟩

/-- Claim C6: on the success path, `status` and `with_status` on `Ok(v)`
and `Some(v)` return the value unchanged for every status-like input, and
the result of the lazy variant does not depend on the closure `f` in any
way — the two final conjuncts equate the outcomes under arbitrary distinct
closures `f` and `g`, which is how "the closure is never invoked" is
expressed in a pure embedding. -/
theorem adapter_success_path {T E S : Type} (v : T) (into : S → StatusCode)
    (s : S) (f g : Unit → S) :
    Result.status (E := E) (Except.ok v) into s = Except.ok v ∧
    Option.status (some v) into s = Except.ok v ∧
    Result.with_status (E := E) (Except.ok v) into f = Except.ok v ∧
    Option.with_status (some v) into f = Except.ok v ∧
    Result.with_status (E := E) (Except.ok v) into f =
      Result.with_status (Except.ok v) into g ∧
    Option.with_status (some v) into f = Option.with_status (some v) into g :=
  ⟨rfl, rfl, rfl, rfl, rfl, rfl⟩

/-- Claim C7: the `u16 → StatusCode` conversion is total as translated (a
Lean function, so it can neither panic nor reject an input), round-trips
every number, and preserves every non-registered number exactly in the
unknown representation; the "Panics if Status is not a valid StatusCode"
doc comments on the adapter correspond to no validating code path. -/
theorem from_u16_total_no_validation (n : Nat) (h : n < 65536) :
    StatusCode.to_u16 (StatusCode.from_u16 n) = n ∧
    (n ∉ registeredNumbers →
      StatusCode.from_u16 n = StatusCode.mk n ∧
      (StatusCode.from_u16 n).is_unknown = true) := by
  refine ⟨?_, fun hn => ⟨from_u16_mk n, ?_⟩⟩
  · rw [from_u16_mk]; rfl
  · rw [from_u16_mk, is_unknown_eq_not_contains]
    simpa [List.contains] using hn

/-- Claim C7 witness: evaluated at the unregistered in-range number 604. -/
theorem from_u16_total_no_validation_witness :
    (604 : Nat) < 65536 ∧
    (StatusCode.to_u16 (StatusCode.from_u16 604) = 604 ∧
     ((604 : Nat) ∉ registeredNumbers →
       StatusCode.from_u16 604 = StatusCode.mk 604 ∧
       (StatusCode.from_u16 604).is_unknown = true)) :=
  ⟨by decide, from_u16_total_no_validation 604 (by decide)⟩

/-- Claim C8: the registered arms of the `u16 → StatusCode` conversion are
extensionally the identity on the wrapped number, so a directly constructed
`StatusCode(417)` is the named constant `ExpectationFailed` and behaves
identically to the converted value under `is_unknown`, `canonical_reason`
and the range predicates. -/
theorem from_u16_extensionally_mk (n : Nat) :
    StatusCode.from_u16 n = StatusCode.mk n ∧
    StatusCode.mk 417 = StatusCode.ExpectationFailed ∧
    (StatusCode.mk 417).is_unknown = (StatusCode.from_u16 417).is_unknown ∧
    (StatusCode.mk 417).is_unknown = false ∧
    (StatusCode.mk 417).canonical_reason =
      (StatusCode.from_u16 417).canonical_reason ∧
    (StatusCode.mk 417).is_client_error =
      (StatusCode.from_u16 417).is_client_error :=
  ⟨from_u16_mk n, rfl, rfl, rfl, rfl, rfl⟩

/-- Claim C9: `StatusCode` equality is determined by the underlying number,
and the two cross-type comparisons between a `StatusCode` and a raw number
both hold on equal numbers and agree with each other. -/
theorem eq_iff_val_eq (a b : Nat) :
    (StatusCode.mk a = StatusCode.mk b ↔ a = b) ∧
    StatusCode.eq_u16 (StatusCode.mk a) a = true ∧
    u16_eq_statusCode a (StatusCode.mk a) = true ∧
    StatusCode.eq_u16 (StatusCode.mk a) b = u16_eq_statusCode b (StatusCode.mk a) := by
  refine ⟨⟨fun h => congrArg StatusCode.val h, fun h => congrArg StatusCode.mk h⟩,
    ?_, ?_, ?_⟩ <;>
  simp [StatusCode.eq_u16, u16_eq_statusCode, StatusCode.to_u16, eq_comm]

/-- Claim C10: the `Display` rendering of a `StatusCode` is exactly the
decimal string of its number — `toString` on `Nat` is `Nat.repr`, the
decimal representation — e.g. 404 renders as `"404"`, never the reason
phrase. -/
theorem display_decimal (c : StatusCode) :
    c.display = Nat.repr c.val ∧
    (StatusCode.mk 404).display = "404" ∧
    StatusCode.NotFound.display = "404" ∧
    (StatusCode.mk 404).display ≠ (StatusCode.mk 404).canonical_reason :=
  ⟨rfl, rfl, rfl, by decide⟩

end HttpTypes
